import Mathlib

/-!
Verification of the REAPER C bridge layer (`src/c/bridge.c`, `src/c/api/fx.c`).

Shallow embedding conventions:
* C pointers are modelled as `Nat`, with `0` standing for `NULL`.
* C `double` values only flow through this layer opaquely (they are copied,
  never computed on), so they are modelled by the stand-in type `CDouble := Int`.
* The host environment (REAPER's `GetFunc` bootstrap and the native operations
  reachable through it) is an explicit record of oracles, `NativeEnv`.
* The process-global `s_GetFunc` variable is threaded as explicit state.
* Writes through caller-supplied out-pointers are modelled as explicit write
  records (`Option` for a single cell, lists of indexed writes for arrays), so
  that "the function did not touch this memory" is observable.
* Native-call side effects are modelled by counting/logging the calls made.
-/

namespace ReaperBridge

/-- C pointers; `0` is `NULL`. -/
abbrev Ptr := Nat

/-- Stand-in for C `double`: the bridge only copies these values around. -/
abbrev CDouble := Int

/-- Oracles describing the host: the bootstrap lookup (`GetFunc`) and the
behaviour of each native operation the fx bridge reaches through it.
A resolution result of `0` means the named operation failed to resolve. -/
structure NativeEnv where
  getFunc : String → Ptr
  trackFxGetCount : Ptr → Int
  trackFxGetNumParams : Ptr → Int → Int
  trackFxGetParamName : Ptr → Int → Int → String
  trackFxGetParam : Ptr → Int → Int → CDouble × CDouble × CDouble
  trackFxGetFormatted : Ptr → Int → Int → String
  trackFxSetParam : Ptr → Int → Int → CDouble → Bool
  trackFxFormatParamValue : Ptr → Int → Int → CDouble → String

/-- Embedding of `plugin_bridge_set_get_func` (bridge.c:675): the new state of
the static `s_GetFunc` after a call with argument `get_func_ptr`.
The C code stores the argument whenever it is non-null. -/
def plugin_bridge_set_get_func (s_GetFunc : Ptr) (get_func_ptr : Ptr) : Ptr :=
  if get_func_ptr ≠ 0 then get_func_ptr else s_GetFunc

/-- Embedding of `plugin_bridge_get_get_func` (bridge.c:691): returns the
stored `s_GetFunc`. -/
def plugin_bridge_get_get_func (s_GetFunc : Ptr) : Ptr :=
  s_GetFunc

/-- Embedding of `plugin_bridge_call_get_func` (bridge.c:17).  The `name`
argument is a C string pointer: `none` is the `NULL` pointer, `some s` a
non-null string (possibly empty).  Returns the looked-up pointer together with
the list of names actually passed to the bootstrap (the side-effect log).
The C guard is `if (!get_func_ptr || !name) return NULL;`. -/
def plugin_bridge_call_get_func (env : NativeEnv) (get_func_ptr : Ptr)
    (name : Option String) : Ptr × List String :=
  match name with
  | none => (0, [])
  | some n => if get_func_ptr = 0 then (0, []) else (env.getFunc n, [n])

/-- Resolution of a named operation inside the batch engines: they always pass
a non-null literal name to `plugin_bridge_call_get_func`. -/
def resolveOp (env : NativeEnv) (getFuncPtr : Ptr) (name : String) : Ptr :=
  (plugin_bridge_call_get_func env getFuncPtr (some name)).1

/-- Concrete environment in which every name resolves to handle `1`. -/
def allOkEnv : NativeEnv where
  getFunc := fun _ => 1
  trackFxGetCount := fun _ => 0
  trackFxGetNumParams := fun _ _ => 3
  trackFxGetParamName := fun _ _ _ => "p"
  trackFxGetParam := fun _ _ _ => (2, 0, 4)
  trackFxGetFormatted := fun _ _ _ => "2.0"
  trackFxSetParam := fun _ _ _ _ => true
  trackFxFormatParamValue := fun _ _ _ _ => "fmt"

/-- Claim C1 (counterexample): the claim says that after `set_bootstrap h1`
then `set_bootstrap h2` (both non-null) the stored handle is `h1`
(first call wins).  In the code the second non-null call overwrites the
stored handle: with `h1 = 1`, `h2 = 2` the stored handle is `2`, not `1`. -/
theorem set_get_func_second_call_overwrites_cex :
    (1 : Ptr) ≠ 0 ∧ (2 : Ptr) ≠ 0 ∧
    plugin_bridge_get_get_func
      (plugin_bridge_set_get_func (plugin_bridge_set_get_func 0 1) 2) = 2 ∧
    plugin_bridge_get_get_func
      (plugin_bridge_set_get_func (plugin_bridge_set_get_func 0 1) 2) ≠ 1 := by
  refine ⟨by decide, by decide, ?_, ?_⟩ <;>
    simp [plugin_bridge_set_get_func, plugin_bridge_get_get_func]

/-- Claim C1 (amended): for non-null `h1, h2`, after calling
`plugin_bridge_set_get_func` with `h1` and then with `h2`, the stored
bootstrap handle is `h2` — the second non-null call overwrites; the last
call wins (null calls are still ignored). -/
theorem set_get_func_last_call_wins (s h1 h2 : Ptr) (hh2 : h2 ≠ 0) :
    plugin_bridge_get_get_func
      (plugin_bridge_set_get_func (plugin_bridge_set_get_func s h1) h2) = h2 := by
  simp [plugin_bridge_set_get_func, plugin_bridge_get_get_func, hh2]

/-- Witness for `set_get_func_last_call_wins` at `s = 0`, `h1 = 1`, `h2 = 2`. -/
theorem set_get_func_last_call_wins_witness :
    plugin_bridge_get_get_func
      (plugin_bridge_set_get_func (plugin_bridge_set_get_func 0 1) 2) = 2 :=
  set_get_func_last_call_wins 0 1 2 (by decide)

/-- Claim C10: a null-argument call to `plugin_bridge_set_get_func` leaves the
stored handle unchanged, and once the stored handle is non-null no sequence of
calls can make it null again. -/
theorem set_get_func_null_ignored_and_sticky (s : Ptr) (ps : List Ptr) :
    plugin_bridge_get_get_func (plugin_bridge_set_get_func s 0) = s ∧
    (s ≠ 0 → List.foldl plugin_bridge_set_get_func s ps ≠ 0) := by
  constructor
  · simp [plugin_bridge_set_get_func, plugin_bridge_get_get_func]
  · intro hs
    induction ps generalizing s with
    | nil => simpa using hs
    | cons p ps ih =>
        simp only [List.foldl_cons]
        apply ih
        unfold plugin_bridge_set_get_func
        split <;> simp_all

/-- Claim C3 (counterexample): the claim says `resolve` returns null without
invoking the bootstrap whenever the name is empty.  With a non-null bootstrap
handle `1` and the non-null empty string as name, the code passes the guard
(`!get_func_ptr || !name` only rejects the `NULL` pointer) and does invoke the
bootstrap lookup, returning its (non-null) result. -/
theorem call_get_func_empty_name_invokes_cex :
    plugin_bridge_call_get_func allOkEnv 1 (some "") = (1, [""]) ∧
    plugin_bridge_call_get_func allOkEnv 1 (some "") ≠ (0, []) := by
  constructor <;> simp [plugin_bridge_call_get_func, allOkEnv]

/-- Claim C3 (amended): `plugin_bridge_call_get_func` returns null without
invoking the bootstrap lookup whenever the bootstrap handle is null or the
name is the `NULL` pointer; an empty but non-null name is not rejected and is
passed through to the bootstrap. -/
theorem call_get_func_null_guard (env : NativeEnv) (p : Ptr) (name : Option String)
    (h : p = 0 ∨ name = none) :
    plugin_bridge_call_get_func env p name = (0, []) := by
  rcases h with h | h <;> rcases name with _ | n <;>
    simp_all [plugin_bridge_call_get_func]

/-- Witness for `call_get_func_null_guard` with a null bootstrap handle. -/
theorem call_get_func_null_guard_witness :
    plugin_bridge_call_get_func allOkEnv 0 (some "TrackFX_GetParam") = (0, []) :=
  call_get_func_null_guard allOkEnv 0 (some "TrackFX_GetParam") (Or.inl rfl)

/-- Embedding of `plugin_bridge_call_track_fx_get_count` (fx.c:13).
Returns the int result together with the number of native calls performed. -/
def plugin_bridge_call_track_fx_get_count (env : NativeEnv) (func_ptr track : Ptr) :
    Int × Nat :=
  if func_ptr = 0 ∨ track = 0 then (0, 0)
  else (env.trackFxGetCount track, 1)

/-- Embedding of `plugin_bridge_call_track_fx_get_param_name` (fx.c:79).
The caller buffer is `(bufNull, buf_size, buf)`; the result is the buffer
contents after the call together with the number of native calls.  On the
guard path the buffer is reset to the empty string when it is non-null and of
positive capacity, and left untouched otherwise. -/
def plugin_bridge_call_track_fx_get_param_name (env : NativeEnv) (func_ptr track : Ptr)
    (fx_idx param_idx : Int) (bufNull : Bool) (buf_size : Int) (buf : String) :
    String × Nat :=
  if func_ptr = 0 ∨ track = 0 ∨ bufNull = true ∨ buf_size ≤ 0 then
    (if bufNull = false ∧ 0 < buf_size then "" else buf, 0)
  else (env.trackFxGetParamName track fx_idx param_idx, 1)

/-- Embedding of `plugin_bridge_call_track_fx_get_param` (fx.c:106).
Returns `(value, minWrite, maxWrite, nativeCalls)`; `none` means the
`minval`/`maxval` out-pointers were not written. -/
def plugin_bridge_call_track_fx_get_param (env : NativeEnv) (func_ptr track : Ptr)
    (fx_idx param_idx : Int) : CDouble × Option CDouble × Option CDouble × Nat :=
  if func_ptr = 0 ∨ track = 0 then (0, none, none, 0)
  else
    let r := env.trackFxGetParam track fx_idx param_idx
    (r.1, some r.2.1, some r.2.2, 1)

/-- Embedding of `plugin_bridge_call_track_fx_set_param` (fx.c:163).
Returns the bool result together with the number of native calls. -/
def plugin_bridge_call_track_fx_set_param (env : NativeEnv) (func_ptr track : Ptr)
    (fx_idx param_idx : Int) (val : CDouble) : Bool × Nat :=
  if func_ptr = 0 ∨ track = 0 then (false, 0)
  else (env.trackFxSetParam track fx_idx param_idx val, 1)

/-- Embedding of `plugin_bridge_call_track_fx_format_param_value` (fx.c:186).
Same buffer convention as `plugin_bridge_call_track_fx_get_param_name`. -/
def plugin_bridge_call_track_fx_format_param_value (env : NativeEnv) (func_ptr track : Ptr)
    (fx_idx param_idx : Int) (value : CDouble) (bufNull : Bool) (buf_size : Int)
    (buf : String) : String × Nat :=
  if func_ptr = 0 ∨ track = 0 ∨ bufNull = true ∨ buf_size ≤ 0 then
    (if bufNull = false ∧ 0 < buf_size then "" else buf, 0)
  else (env.trackFxFormatParamValue track fx_idx param_idx value, 1)

/-- Claim C7: every typed invocation wrapper, given a null handle, a null
required pointer, or a non-positive buffer capacity, returns its documented
default (0, 0.0, false) with zero native calls, and resets a present,
non-null, positive-capacity output buffer to the empty string. -/
theorem typed_wrapper_guard_defaults (env : NativeEnv) (fp tr : Ptr)
    (fx px : Int) (val : CDouble) (bufNull : Bool) (sz : Int) (buf : String) :
    (fp = 0 ∨ tr = 0 →
      plugin_bridge_call_track_fx_get_count env fp tr = (0, 0) ∧
      plugin_bridge_call_track_fx_get_param env fp tr fx px = (0, none, none, 0) ∧
      plugin_bridge_call_track_fx_set_param env fp tr fx px val = (false, 0)) ∧
    (fp = 0 ∨ tr = 0 ∨ bufNull = true ∨ sz ≤ 0 →
      plugin_bridge_call_track_fx_get_param_name env fp tr fx px bufNull sz buf =
        (if bufNull = false ∧ 0 < sz then "" else buf, 0) ∧
      plugin_bridge_call_track_fx_format_param_value env fp tr fx px val bufNull sz buf =
        (if bufNull = false ∧ 0 < sz then "" else buf, 0)) := by
  constructor
  · intro h
    refine ⟨?_, ?_, ?_⟩ <;>
      simp [plugin_bridge_call_track_fx_get_count,
        plugin_bridge_call_track_fx_get_param,
        plugin_bridge_call_track_fx_set_param, h]
  · intro h
    constructor <;>
      simp [plugin_bridge_call_track_fx_get_param_name,
        plugin_bridge_call_track_fx_format_param_value, h]

/-- Witness for `typed_wrapper_guard_defaults`: a null handle with a valid
buffer of capacity 8 yields the defaults, zero native calls, and the buffer
reset from "old" to the empty string. -/
theorem typed_wrapper_guard_defaults_witness :
    plugin_bridge_call_track_fx_set_param allOkEnv 0 1 0 0 5 = (false, 0) ∧
    plugin_bridge_call_track_fx_get_param_name allOkEnv 0 1 0 0 false 8 "old" =
      ("", 0) := by
  have h := typed_wrapper_guard_defaults allOkEnv 0 1 0 0 5 false 8 "old"
  refine ⟨(h.1 (Or.inl rfl)).2.2, ?_⟩
  have h2 := (h.2 (Or.inl rfl)).1
  simpa using h2

/-- One `fx_param_t` slot (fx.h:14): name, value, min, max, formatted text. -/
structure FxParam where
  name : String
  value : CDouble
  min : CDouble
  max : CDouble
  formatted : String
deriving Repr, DecidableEq

/-- The four native sub-reads that populate slot `i` of the output buffer in
the batch-read loop (fx.c:308). -/
def readParam (env : NativeEnv) (track : Ptr) (fx_idx : Int) (i : Nat) : FxParam :=
  { name := env.trackFxGetParamName track fx_idx (Int.ofNat i)
  , value := (env.trackFxGetParam track fx_idx (Int.ofNat i)).1
  , min := (env.trackFxGetParam track fx_idx (Int.ofNat i)).2.1
  , max := (env.trackFxGetParam track fx_idx (Int.ofNat i)).2.2
  , formatted := env.trackFxGetFormatted track fx_idx (Int.ofNat i) }

/-- Observable outcome of `plugin_bridge_batch_get_fx_parameters`: the bool
result, the slots written into the caller's `params` buffer (in order, from
slot 0), and the value written through `out_param_count` (`none` when the
function returned without writing it). -/
structure BatchGetResult where
  ok : Bool
  written : List FxParam
  outWrite : Option Int
deriving Repr, DecidableEq

/-- Embedding of `plugin_bridge_batch_get_fx_parameters` (fx.c:215).
`paramsNull`/`outNull` model nullness of the `params` and `out_param_count`
pointers; `s_GetFunc` is the stored bootstrap handle. -/
def plugin_bridge_batch_get_fx_parameters (env : NativeEnv) (s_GetFunc : Ptr)
    (track : Ptr) (fx_idx : Int) (paramsNull : Bool) (max_params : Int)
    (outNull : Bool) : BatchGetResult :=
  if track = 0 ∨ paramsNull = true ∨ outNull = true ∨ max_params ≤ 0 then
    ⟨false, [], none⟩
  else
    let getFuncPtr := plugin_bridge_get_get_func s_GetFunc
    if getFuncPtr = 0 then ⟨false, [], none⟩
    else if resolveOp env getFuncPtr "TrackFX_GetNumParams" = 0 then ⟨false, [], none⟩
    else if resolveOp env getFuncPtr "TrackFX_GetParamName" = 0 then ⟨false, [], none⟩
    else if resolveOp env getFuncPtr "TrackFX_GetParam" = 0 then ⟨false, [], none⟩
    else if resolveOp env getFuncPtr "TrackFX_GetFormattedParamValue" = 0 then
      ⟨false, [], none⟩
    else
      let param_count := env.trackFxGetNumParams track fx_idx
      if param_count ≤ 0 then ⟨true, [], some 0⟩
      else
        let clamped := if param_count > max_params then max_params else param_count
        ⟨true, (List.range clamped.toNat).map (readParam env track fx_idx), some clamped⟩

/-- The value a caller observes in `*out_param_count` after the call, given
the value `init` it held before the call. -/
def outAfter (w : Option Int) (init : Int) : Int :=
  w.getD init

/-- Environment in which `TrackFX_GetParam` fails to resolve but everything
else resolves, and the item count is 10. -/
def resolveFailEnv : NativeEnv where
  getFunc := fun n => if n = "TrackFX_GetParam" then 0 else 1
  trackFxGetCount := fun _ => 0
  trackFxGetNumParams := fun _ _ => 10
  trackFxGetParamName := fun _ _ _ => "p"
  trackFxGetParam := fun _ _ _ => (2, 0, 4)
  trackFxGetFormatted := fun _ _ _ => "2.0"
  trackFxSetParam := fun _ _ _ _ => true
  trackFxFormatParamValue := fun _ _ _ _ => "fmt"

/-- Claim C2 (counterexample): the claim says that when a required operation
fails to resolve, the call returns success = false and `*out_param_count = 0`.
With `TrackFX_GetParam` failing to resolve and the caller's count cell holding
5 beforehand, the call returns false but never writes `out_param_count`, so
the observed count stays 5, not 0. -/
theorem batch_get_resolve_failure_out_unchanged_cex :
    plugin_bridge_batch_get_fx_parameters resolveFailEnv 1 1 0 false 8 false =
      ⟨false, [], none⟩ ∧
    outAfter (plugin_bridge_batch_get_fx_parameters resolveFailEnv 1 1 0 false 8 false).outWrite 5 = 5 ∧
    ¬ outAfter (plugin_bridge_batch_get_fx_parameters resolveFailEnv 1 1 0 false 8 false).outWrite 5 = 0 := by
  refine ⟨?_, by decide, by decide⟩
  simp [plugin_bridge_batch_get_fx_parameters, plugin_bridge_get_get_func,
    resolveOp, plugin_bridge_call_get_func, resolveFailEnv]

/-- Claim C2 (amended): whenever the bootstrap handle is unset or any one of
the four required operations fails to resolve, the batch read returns
success = false with no slots written and without writing `out_param_count`
(which therefore keeps its prior value rather than being set to 0),
regardless of the item count. -/
theorem batch_get_resolve_failure_aborts (env : NativeEnv) (s track : Ptr)
    (fx_idx : Int) (paramsNull : Bool) (max_params : Int) (outNull : Bool)
    (h : s = 0 ∨ env.getFunc "TrackFX_GetNumParams" = 0 ∨
      env.getFunc "TrackFX_GetParamName" = 0 ∨ env.getFunc "TrackFX_GetParam" = 0 ∨
      env.getFunc "TrackFX_GetFormattedParamValue" = 0) :
    plugin_bridge_batch_get_fx_parameters env s track fx_idx paramsNull max_params outNull =
      ⟨false, [], none⟩ := by
  unfold plugin_bridge_batch_get_fx_parameters
  split
  · rfl
  · by_cases hs : s = 0
    · simp [plugin_bridge_get_get_func, hs]
    · simp only [plugin_bridge_get_get_func, resolveOp, plugin_bridge_call_get_func,
        if_neg hs]
      rcases h with h | h | h | h | h
      · exact absurd h hs
      all_goals simp [h, hs]

/-- Witness for `batch_get_resolve_failure_aborts` in `resolveFailEnv`. -/
theorem batch_get_resolve_failure_aborts_witness :
    plugin_bridge_batch_get_fx_parameters resolveFailEnv 1 1 0 false 8 false =
      ⟨false, [], none⟩ :=
  batch_get_resolve_failure_aborts resolveFailEnv 1 1 0 false 8 false
    (Or.inr (Or.inr (Or.inr (Or.inl (by decide)))))

/-- Environment in which everything resolves, track `2` reports no
parameters and every other track reports 10. -/
def countEnv : NativeEnv where
  getFunc := fun _ => 1
  trackFxGetCount := fun _ => 0
  trackFxGetNumParams := fun t _ => if t = 2 then 0 else 10
  trackFxGetParamName := fun _ _ _ => "p"
  trackFxGetParam := fun _ _ _ => (2, 0, 4)
  trackFxGetFormatted := fun _ _ _ => "2.0"
  trackFxSetParam := fun _ _ _ _ => true
  trackFxFormatParamValue := fun _ _ _ _ => "fmt"

/-- Claim C5: on a valid call where the native item count strictly exceeds
the caller-supplied capacity, the batch read clamps to exactly `max_params`
items, writes `out_param_count = max_params`, and still returns success. -/
theorem batch_get_truncation_success (env : NativeEnv) (s track : Ptr)
    (fx_idx max_params : Int)
    (htrack : track ≠ 0) (hmax : 0 < max_params) (hs : s ≠ 0)
    (h1 : env.getFunc "TrackFX_GetNumParams" ≠ 0)
    (h2 : env.getFunc "TrackFX_GetParamName" ≠ 0)
    (h3 : env.getFunc "TrackFX_GetParam" ≠ 0)
    (h4 : env.getFunc "TrackFX_GetFormattedParamValue" ≠ 0)
    (hcount : max_params < env.trackFxGetNumParams track fx_idx) :
    plugin_bridge_batch_get_fx_parameters env s track fx_idx false max_params false =
      ⟨true, (List.range max_params.toNat).map (readParam env track fx_idx),
        some max_params⟩ ∧
    (plugin_bridge_batch_get_fx_parameters env s track fx_idx false max_params
      false).written.length = max_params.toNat := by
  have hnle : ¬ max_params ≤ 0 := not_le.mpr hmax
  have hcnle : ¬ env.trackFxGetNumParams track fx_idx ≤ 0 := by omega
  have hmain : plugin_bridge_batch_get_fx_parameters env s track fx_idx false
      max_params false =
      ⟨true, (List.range max_params.toNat).map (readParam env track fx_idx),
        some max_params⟩ := by
    unfold plugin_bridge_batch_get_fx_parameters
    simp [plugin_bridge_get_get_func, resolveOp, plugin_bridge_call_get_func,
      htrack, hnle, hs, h1, h2, h3, h4, hcnle, hcount]
  exact ⟨hmain, by simp [hmain]⟩

/-- Witness for `batch_get_truncation_success`: item count 10, capacity 4. -/
theorem batch_get_truncation_success_witness :
    (plugin_bridge_batch_get_fx_parameters countEnv 1 1 0 false 4 false).ok = true ∧
    (plugin_bridge_batch_get_fx_parameters countEnv 1 1 0 false 4 false).outWrite = some 4 ∧
    (plugin_bridge_batch_get_fx_parameters countEnv 1 1 0 false 4 false).written.length = 4 := by
  have h := batch_get_truncation_success countEnv 1 1 0 4 (by decide) (by decide)
    (by decide) (by decide) (by decide) (by decide) (by decide) (by decide)
  exact ⟨by rw [h.1], by rw [h.1], by simpa using h.2⟩

/-- Claim C8: on a valid call where the native item count is ≤ 0, the batch
read reports success with `out_param_count = 0` and writes nothing into the
caller's output buffer. -/
theorem batch_get_empty_success (env : NativeEnv) (s track : Ptr)
    (fx_idx max_params : Int)
    (htrack : track ≠ 0) (hmax : 0 < max_params) (hs : s ≠ 0)
    (h1 : env.getFunc "TrackFX_GetNumParams" ≠ 0)
    (h2 : env.getFunc "TrackFX_GetParamName" ≠ 0)
    (h3 : env.getFunc "TrackFX_GetParam" ≠ 0)
    (h4 : env.getFunc "TrackFX_GetFormattedParamValue" ≠ 0)
    (hcount : env.trackFxGetNumParams track fx_idx ≤ 0) :
    plugin_bridge_batch_get_fx_parameters env s track fx_idx false max_params false =
      ⟨true, [], some 0⟩ := by
  have hnle : ¬ max_params ≤ 0 := not_le.mpr hmax
  unfold plugin_bridge_batch_get_fx_parameters
  simp [plugin_bridge_get_get_func, resolveOp, plugin_bridge_call_get_func,
    htrack, hnle, hs, h1, h2, h3, h4, hcount]

/-- Witness for `batch_get_empty_success`: track 2 has item count 0. -/
theorem batch_get_empty_success_witness :
    plugin_bridge_batch_get_fx_parameters countEnv 1 2 0 false 4 false =
      ⟨true, [], some 0⟩ :=
  batch_get_empty_success countEnv 1 2 0 4 (by decide) (by decide) (by decide)
    (by decide) (by decide) (by decide) (by decide) (by decide)

/-- One `fx_param_change_t` (fx.h:31). -/
structure FxParamChange where
  fx_index : Int
  param_index : Int
  value : CDouble
deriving Repr, DecidableEq

/-- One `fx_param_multi_change_t` (fields as accessed in fx.c:696..710). -/
structure FxParamMultiChange where
  track_index : Int
  fx_index : Int
  param_index : Int
  value : CDouble
deriving Repr, DecidableEq

/-- The attempt made for one change in the single-target apply loop
(fx.c:421): a call to the `TrackFX_SetParam` typed wrapper. -/
def singleSetAttempt (env : NativeEnv) (setParamFunc track : Ptr)
    (c : FxParamChange) : Bool :=
  (plugin_bridge_call_track_fx_set_param env setParamFunc track
    c.fx_index c.param_index c.value).1

/-- Embedding of `plugin_bridge_batch_set_fx_parameters` (fx.c:390).
Returns the aggregate bool together with the per-change outcomes. -/
def plugin_bridge_batch_set_fx_parameters (env : NativeEnv) (s_GetFunc : Ptr)
    (track : Ptr) (changesNull : Bool) (changes : List FxParamChange) :
    Bool × List Bool :=
  if track = 0 ∨ changesNull = true ∨ changes.length = 0 then (false, [])
  else
    let getFuncPtr := plugin_bridge_get_get_func s_GetFunc
    if getFuncPtr = 0 then (false, [])
    else if resolveOp env getFuncPtr "TrackFX_SetParam" = 0 then (false, [])
    else
      let results := changes.map
        (singleSetAttempt env (resolveOp env getFuncPtr "TrackFX_SetParam") track)
      (results.all (fun b => b), results)

/-- The attempt made for one change in the multi-target apply loop
(fx.c:696): a change naming a negative track index or a null track fails
without a native call; otherwise `TrackFX_SetParam` is attempted. -/
def multiSetAttempt (env : NativeEnv) (setParamFunc : Ptr) (tracks : List Ptr)
    (c : FxParamMultiChange) : Bool :=
  if c.track_index < 0 ∨ tracks.getD c.track_index.toNat 0 = 0 then false
  else
    (plugin_bridge_call_track_fx_set_param env setParamFunc
      (tracks.getD c.track_index.toNat 0) c.fx_index c.param_index c.value).1

/-- Embedding of `plugin_bridge_batch_set_multi_track_fx_parameters`
(fx.c:663). -/
def plugin_bridge_batch_set_multi_track_fx_parameters (env : NativeEnv)
    (s_GetFunc : Ptr) (tracksNull changesNull : Bool) (tracks : List Ptr)
    (changes : List FxParamMultiChange) : Bool × List Bool :=
  if tracksNull = true ∨ changesNull = true ∨ changes.length = 0 then (false, [])
  else
    let getFuncPtr := plugin_bridge_get_get_func s_GetFunc
    if getFuncPtr = 0 then (false, [])
    else if resolveOp env getFuncPtr "TrackFX_SetParam" = 0 then (false, [])
    else
      let results := changes.map
        (multiSetAttempt env (resolveOp env getFuncPtr "TrackFX_SetParam") tracks)
      (results.all (fun b => b), results)

/-- Claim C6: in both apply engines, once setup succeeds every change in the
list is attempted — the `i`-th outcome is exactly the attempt for the `i`-th
change, independent of earlier outcomes — and the aggregate flag is true iff
every individual change succeeded. -/
theorem batch_set_attempts_all_iff_success (env : NativeEnv) (s track : Ptr)
    (tracks : List Ptr) (changes : List FxParamChange)
    (mchanges : List FxParamMultiChange)
    (htrack : track ≠ 0) (hs : s ≠ 0)
    (hres : env.getFunc "TrackFX_SetParam" ≠ 0)
    (hne : changes.length ≠ 0) (hmne : mchanges.length ≠ 0) :
    (plugin_bridge_batch_set_fx_parameters env s track false changes).2 =
      changes.map (singleSetAttempt env (env.getFunc "TrackFX_SetParam") track) ∧
    ((plugin_bridge_batch_set_fx_parameters env s track false changes).1 = true ↔
      ∀ b ∈ (plugin_bridge_batch_set_fx_parameters env s track false changes).2,
        b = true) ∧
    (plugin_bridge_batch_set_multi_track_fx_parameters env s false false tracks
        mchanges).2 =
      mchanges.map (multiSetAttempt env (env.getFunc "TrackFX_SetParam") tracks) ∧
    ((plugin_bridge_batch_set_multi_track_fx_parameters env s false false tracks
        mchanges).1 = true ↔
      ∀ b ∈ (plugin_bridge_batch_set_multi_track_fx_parameters env s false false
        tracks mchanges).2, b = true) := by
  have hsingle : plugin_bridge_batch_set_fx_parameters env s track false changes =
      (((changes.map (singleSetAttempt env (env.getFunc "TrackFX_SetParam")
        track)).all (fun b => b)),
        changes.map (singleSetAttempt env (env.getFunc "TrackFX_SetParam") track)) := by
    unfold plugin_bridge_batch_set_fx_parameters
    simp [plugin_bridge_get_get_func, resolveOp, plugin_bridge_call_get_func,
      htrack, hs, hres, hne]
  have hmulti : plugin_bridge_batch_set_multi_track_fx_parameters env s false false
      tracks mchanges =
      (((mchanges.map (multiSetAttempt env (env.getFunc "TrackFX_SetParam")
        tracks)).all (fun b => b)),
        mchanges.map (multiSetAttempt env (env.getFunc "TrackFX_SetParam") tracks)) := by
    unfold plugin_bridge_batch_set_multi_track_fx_parameters
    simp [plugin_bridge_get_get_func, resolveOp, plugin_bridge_call_get_func,
      hs, hres, hmne]
  refine ⟨by rw [hsingle], ?_, by rw [hmulti], ?_⟩
  · rw [hsingle]
    simp [List.all_eq_true]
  · rw [hmulti]
    simp [List.all_eq_true]

/-- Environment in which `TrackFX_SetParam` succeeds exactly when the value
being set is not 3 (so one specific change fails at the native layer). -/
def mixEnv : NativeEnv where
  getFunc := fun _ => 1
  trackFxGetCount := fun _ => 0
  trackFxGetNumParams := fun _ _ => 3
  trackFxGetParamName := fun _ _ _ => "p"
  trackFxGetParam := fun _ _ _ => (2, 0, 4)
  trackFxGetFormatted := fun _ _ _ => "2.0"
  trackFxSetParam := fun _ _ _ v => decide (v ≠ 3)
  trackFxFormatParamValue := fun _ _ _ _ => "fmt"

/-- Five changes of which the third carries the failing value 3. -/
def fiveChanges : List FxParamChange :=
  [⟨0, 0, 1⟩, ⟨0, 1, 2⟩, ⟨0, 2, 3⟩, ⟨0, 3, 4⟩, ⟨0, 4, 5⟩]

/-- Witness for `batch_set_attempts_all_iff_success`: with five changes of
which the third fails at the native layer, all five are attempted, exactly the
third outcome is false, and the aggregate result is false. -/
theorem batch_set_attempts_all_iff_success_witness :
    (plugin_bridge_batch_set_fx_parameters mixEnv 1 1 false fiveChanges).2 =
      [true, true, false, true, true] ∧
    (plugin_bridge_batch_set_fx_parameters mixEnv 1 1 false fiveChanges).1 = false := by
  have h := batch_set_attempts_all_iff_success mixEnv 1 1 [1] fiveChanges
    [⟨0, 0, 0, 1⟩] (by decide) (by decide) (by decide) (by decide) (by decide)
  refine ⟨?_, by decide⟩
  rw [h.1]
  decide

/-- One `fx_param_format_t` input (fx.h:23); the `formatted` output buffer is
modelled as the per-item write the loop produces. -/
structure FxParamFormat where
  fx_index : Int
  param_index : Int
  value : CDouble
deriving Repr, DecidableEq

/-- One multi-target format item (fields as accessed in fx.c:631..649). -/
structure FxParamMultiFormat where
  track_index : Int
  fx_index : Int
  param_index : Int
  value : CDouble
deriving Repr, DecidableEq

/-- Embedding of `plugin_bridge_batch_format_fx_parameters` (fx.c:336).
The second component lists the per-item `formatted` buffer contents written,
in order.  Each item's buffer is the in-struct array `formatted[256]`, always
non-null with capacity 256. -/
def plugin_bridge_batch_format_fx_parameters (env : NativeEnv) (s_GetFunc : Ptr)
    (track : Ptr) (paramsNull : Bool) (items : List FxParamFormat) :
    Bool × List String :=
  if track = 0 ∨ paramsNull = true ∨ items.length = 0 then (false, [])
  else
    let getFuncPtr := plugin_bridge_get_get_func s_GetFunc
    if getFuncPtr = 0 then (false, [])
    else if resolveOp env getFuncPtr "TrackFX_FormatParamValue" = 0 then (false, [])
    else
      (true, items.map (fun it =>
        (plugin_bridge_call_track_fx_format_param_value env
          (resolveOp env getFuncPtr "TrackFX_FormatParamValue") track
          it.fx_index it.param_index it.value false 256 "").1))

/-- The per-item loop of `plugin_bridge_batch_format_multi_fx_parameters`
(fx.c:631): an item naming a negative track index or a null track makes the
whole call return false immediately, leaving the remaining items
unprocessed. -/
def multiFormatLoop (env : NativeEnv) (formatValueFunc : Ptr) (tracks : List Ptr) :
    List FxParamMultiFormat → Bool × List String
  | [] => (true, [])
  | it :: rest =>
    if it.track_index < 0 ∨ tracks.getD it.track_index.toNat 0 = 0 then (false, [])
    else
      let w := (plugin_bridge_call_track_fx_format_param_value env formatValueFunc
        (tracks.getD it.track_index.toNat 0) it.fx_index it.param_index it.value
        false 256 "").1
      let r := multiFormatLoop env formatValueFunc tracks rest
      (r.1, w :: r.2)

/-- Embedding of `plugin_bridge_batch_format_multi_fx_parameters` (fx.c:599). -/
def plugin_bridge_batch_format_multi_fx_parameters (env : NativeEnv)
    (s_GetFunc : Ptr) (tracksNull paramsNull : Bool) (tracks : List Ptr)
    (items : List FxParamMultiFormat) : Bool × List String :=
  if tracksNull = true ∨ paramsNull = true ∨ items.length = 0 then (false, [])
  else
    let getFuncPtr := plugin_bridge_get_get_func s_GetFunc
    if getFuncPtr = 0 then (false, [])
    else if resolveOp env getFuncPtr "TrackFX_FormatParamValue" = 0 then (false, [])
    else multiFormatLoop env (resolveOp env getFuncPtr "TrackFX_FormatParamValue")
      tracks items

/-- Validity of one multi-format item against the target table: the C loop
aborts exactly on the invalid ones. -/
def multiFormatItemValid (tracks : List Ptr) (it : FxParamMultiFormat) : Prop :=
  ¬ (it.track_index < 0 ∨ tracks.getD it.track_index.toNat 0 = 0)

/-- Claim C9 (counterexample): the claim says that with valid top-level inputs
and a resolved format operation, a null target referenced by one item in the
multi-target case never makes the overall call fail or stop processing.
With targets `[1, 0]` and three items referencing targets 0, 1, 0, the call
returns false and only the first item was processed. -/
theorem multi_format_null_track_aborts_cex :
    plugin_bridge_batch_format_multi_fx_parameters allOkEnv 1 false false [1, 0]
      [⟨0, 0, 0, 5⟩, ⟨1, 0, 0, 5⟩, ⟨0, 0, 0, 5⟩] = (false, ["fmt"]) ∧
    (plugin_bridge_batch_format_multi_fx_parameters allOkEnv 1 false false [1, 0]
      [⟨0, 0, 0, 5⟩, ⟨1, 0, 0, 5⟩, ⟨0, 0, 0, 5⟩]).1 ≠ true ∧
    (plugin_bridge_batch_format_multi_fx_parameters allOkEnv 1 false false [1, 0]
      [⟨0, 0, 0, 5⟩, ⟨1, 0, 0, 5⟩, ⟨0, 0, 0, 5⟩]).2.length ≠ 3 := by
  refine ⟨?_, by decide, by decide⟩
  simp [plugin_bridge_batch_format_multi_fx_parameters, multiFormatLoop,
    plugin_bridge_get_get_func, resolveOp, plugin_bridge_call_get_func,
    plugin_bridge_call_track_fx_format_param_value, allOkEnv]

/-- Claim C9 (amended): with valid top-level inputs and a resolved format
operation, the single-target engine processes every item and returns true; the
multi-target engine returns true iff every item references a valid (in-range,
non-null) target — an item referencing a null or negative-index target makes
the overall multi-target call return false and stops processing there. -/
theorem batch_format_semantics (env : NativeEnv) (s track : Ptr)
    (tracks : List Ptr) (items : List FxParamFormat)
    (mitems : List FxParamMultiFormat)
    (htrack : track ≠ 0) (hs : s ≠ 0)
    (hres : env.getFunc "TrackFX_FormatParamValue" ≠ 0)
    (hne : items.length ≠ 0) (hmne : mitems.length ≠ 0) :
    (plugin_bridge_batch_format_fx_parameters env s track false items).1 = true ∧
    (plugin_bridge_batch_format_fx_parameters env s track false items).2.length =
      items.length ∧
    ((plugin_bridge_batch_format_multi_fx_parameters env s false false tracks
        mitems).1 = true ↔ ∀ it ∈ mitems, multiFormatItemValid tracks it) ∧
    ((plugin_bridge_batch_format_multi_fx_parameters env s false false tracks
        mitems).1 = true →
      (plugin_bridge_batch_format_multi_fx_parameters env s false false tracks
        mitems).2.length = mitems.length) := by
  have hloop : ∀ ms : List FxParamMultiFormat,
      ((multiFormatLoop env (env.getFunc "TrackFX_FormatParamValue") tracks ms).1 =
        true ↔ ∀ it ∈ ms, multiFormatItemValid tracks it) ∧
      ((multiFormatLoop env (env.getFunc "TrackFX_FormatParamValue") tracks ms).1 =
        true →
        (multiFormatLoop env (env.getFunc "TrackFX_FormatParamValue") tracks
          ms).2.length = ms.length) := by
    intro ms
    induction ms with
    | nil => simp [multiFormatLoop]
    | cons it rest ih =>
        by_cases hv : it.track_index < 0 ∨ tracks.getD it.track_index.toNat 0 = 0
        · have hstep : multiFormatLoop env (env.getFunc "TrackFX_FormatParamValue")
              tracks (it :: rest) = (false, []) := by
            simp only [multiFormatLoop]
            rw [if_pos hv]
          rw [hstep]
          constructor
          · constructor
            · intro h0
              simp at h0
            · intro hall
              exact absurd hv (hall it (List.mem_cons_self it rest))
          · intro h0
            simp at h0
        · have hstep : multiFormatLoop env (env.getFunc "TrackFX_FormatParamValue")
              tracks (it :: rest) =
              ((multiFormatLoop env (env.getFunc "TrackFX_FormatParamValue")
                  tracks rest).1,
                (plugin_bridge_call_track_fx_format_param_value env
                  (env.getFunc "TrackFX_FormatParamValue")
                  (tracks.getD it.track_index.toNat 0) it.fx_index it.param_index
                  it.value false 256 "").1 ::
                (multiFormatLoop env (env.getFunc "TrackFX_FormatParamValue")
                  tracks rest).2) := by
            simp only [multiFormatLoop]
            rw [if_neg hv]
          rw [hstep]
          constructor
          · constructor
            · intro hok x hx
              rcases List.mem_cons.mp hx with h | h
              · subst h
                exact hv
              · exact ih.1.mp hok x h
            · intro hall
              exact ih.1.mpr (fun x hx => hall x (List.mem_cons.mpr (Or.inr hx)))
          · intro hok
            simp [ih.2 hok]
  have hsingle : plugin_bridge_batch_format_fx_parameters env s track false items =
      (true, items.map (fun it =>
        (plugin_bridge_call_track_fx_format_param_value env
          (env.getFunc "TrackFX_FormatParamValue") track
          it.fx_index it.param_index it.value false 256 "").1)) := by
    unfold plugin_bridge_batch_format_fx_parameters
    simp [plugin_bridge_get_get_func, resolveOp, plugin_bridge_call_get_func,
      htrack, hs, hres, hne]
  have hmulti : plugin_bridge_batch_format_multi_fx_parameters env s false false
      tracks mitems =
      multiFormatLoop env (env.getFunc "TrackFX_FormatParamValue") tracks mitems := by
    unfold plugin_bridge_batch_format_multi_fx_parameters
    simp [plugin_bridge_get_get_func, resolveOp, plugin_bridge_call_get_func,
      hs, hres, hmne]
  refine ⟨by rw [hsingle], by rw [hsingle]; simp, ?_, ?_⟩
  · rw [hmulti]
    exact (hloop mitems).1
  · rw [hmulti]
    exact (hloop mitems).2

/-- Witness for `batch_format_semantics`: one single-target item and one valid
multi-target item; both engines succeed and process every item. -/
theorem batch_format_semantics_witness :
    (plugin_bridge_batch_format_fx_parameters allOkEnv 1 1 false [⟨0, 0, 5⟩]).1 =
      true ∧
    (plugin_bridge_batch_format_multi_fx_parameters allOkEnv 1 false false [1]
      [⟨0, 0, 0, 5⟩]).1 = true := by
  have h := batch_format_semantics allOkEnv 1 1 [1] [⟨0, 0, 5⟩] [⟨0, 0, 0, 5⟩]
    (by decide) (by decide) (by decide) (by decide) (by decide)
  refine ⟨h.1, ?_⟩
  refine (h.2.2.1).mpr ?_
  intro it hit
  simp only [List.mem_singleton] at hit
  subst hit
  simp [multiFormatItemValid]

/-- The flattened buffer offset of target `t` (fx.c:551): the running sum of
the `fx_counts` of all prior targets, skipped or not. -/
def offsetSum (fx_counts : Nat → Int) : Nat → Int
  | 0 => 0
  | t + 1 => offsetSum fx_counts t + fx_counts t

/-- One write into the flattened result tables of the multi-target read:
slot index `idx` receives count `count` in `param_counts` and the listed
parameter slots in `param_buffers[idx]`. -/
structure SlotWrite where
  idx : Int
  count : Int
  params : List FxParam
deriving Repr, DecidableEq

/-- The writes produced for one non-null target with positive `fx_count` in
the multi-target read loop (fx.c:546): one slot per FX; an FX whose native
parameter count is ≤ 0 gets count 0 and no parameter data (fx.c:559). -/
def multiGetTrackWrites (env : NativeEnv) (track : Ptr) (base : Int)
    (fxOf : Nat → Int) (fx_count : Nat) : List SlotWrite :=
  (List.range fx_count).map (fun f =>
    if env.trackFxGetNumParams track (fxOf f) ≤ 0 then
      ⟨base + Int.ofNat f, 0, []⟩
    else
      ⟨base + Int.ofNat f, env.trackFxGetNumParams track (fxOf f),
        (List.range (env.trackFxGetNumParams track (fxOf f)).toNat).map
          (readParam env track (fxOf f))⟩)

/-- All writes contributed by target `t` in the multi-target read: a null
target (fx.c:532) or a non-positive `fx_counts[t]` (fx.c:538) contributes
nothing at all — in particular no `param_counts` write. -/
def trackContribution (env : NativeEnv) (tracks : List Ptr) (fx_counts : Nat → Int)
    (fx_indices : Nat → Nat → Int) (t : Nat) : List SlotWrite :=
  if tracks.getD t 0 = 0 then []
  else if fx_counts t ≤ 0 then []
  else multiGetTrackWrites env (tracks.getD t 0) (offsetSum fx_counts t)
    (fx_indices t) (fx_counts t).toNat

/-- Observable outcome of the multi-target read: the bool result and the
ordered list of slot writes performed. -/
structure MultiGetResult where
  ok : Bool
  countWrites : List SlotWrite
deriving Repr, DecidableEq

/-- Embedding of `plugin_bridge_batch_get_multi_track_fx_parameters`
(fx.c:454).  The five bools model nullness of the `tracks`, `fx_indices`,
`fx_counts`, `param_buffers` and `param_counts` array pointers;
`tracks.length` is `track_count`. -/
def plugin_bridge_batch_get_multi_track_fx_parameters (env : NativeEnv)
    (s_GetFunc : Ptr)
    (tracksNull fxIndicesNull fxCountsNull paramBuffersNull paramCountsNull : Bool)
    (tracks : List Ptr) (fx_counts : Nat → Int) (fx_indices : Nat → Nat → Int) :
    MultiGetResult :=
  if tracksNull = true ∨ tracks.length = 0 ∨ fxIndicesNull = true ∨
      fxCountsNull = true ∨ paramBuffersNull = true ∨ paramCountsNull = true then
    ⟨false, []⟩
  else
    let getFuncPtr := plugin_bridge_get_get_func s_GetFunc
    if getFuncPtr = 0 then ⟨false, []⟩
    else if resolveOp env getFuncPtr "TrackFX_GetNumParams" = 0 then ⟨false, []⟩
    else if resolveOp env getFuncPtr "TrackFX_GetParamName" = 0 then ⟨false, []⟩
    else if resolveOp env getFuncPtr "TrackFX_GetParam" = 0 then ⟨false, []⟩
    else if resolveOp env getFuncPtr "TrackFX_GetFormattedParamValue" = 0 then
      ⟨false, []⟩
    else
      ⟨true, ((List.range tracks.length).map
        (trackContribution env tracks fx_counts fx_indices)).flatten⟩

/-- The value observed in `param_counts[i]` after the call, given the value
`init i` it held before the call. -/
def countsAfter (init : Int → Int) (writes : List SlotWrite) (i : Int) : Int :=
  writes.foldl (fun acc w => if w.idx = i then w.count else acc) (init i)

/-- Running offsets are monotone when all per-target FX counts are
nonnegative. -/
theorem offsetSum_le (fx_counts : Nat → Int) (hnn : ∀ i, 0 ≤ fx_counts i) :
    ∀ a b : Nat, a ≤ b → offsetSum fx_counts a ≤ offsetSum fx_counts b := by
  intro a b hab
  induction b with
  | zero =>
      have ha : a = 0 := Nat.le_zero.mp hab
      simp [ha]
  | succ b ih =>
      rcases Nat.eq_or_lt_of_le hab with h | h
      · exact le_of_eq (by rw [h])
      · have ha : a ≤ b := Nat.lt_succ_iff.mp h
        have h1 := ih ha
        have h2 := hnn b
        have h3 : offsetSum fx_counts (b + 1) = offsetSum fx_counts b + fx_counts b :=
          rfl
        omega

/-- Every write contributed by target `u` lands in `u`'s own slot range, and
only non-null targets with positive FX count contribute at all. -/
theorem trackContribution_mem_bounds (env : NativeEnv) (tracks : List Ptr)
    (fx_counts : Nat → Int) (fx_indices : Nat → Nat → Int) (u : Nat) (w : SlotWrite)
    (hw : w ∈ trackContribution env tracks fx_counts fx_indices u) :
    tracks.getD u 0 ≠ 0 ∧ 0 < fx_counts u ∧
    offsetSum fx_counts u ≤ w.idx ∧
    w.idx < offsetSum fx_counts u + fx_counts u := by
  unfold trackContribution at hw
  by_cases h0 : tracks.getD u 0 = 0
  · rw [if_pos h0] at hw
    simp at hw
  · rw [if_neg h0] at hw
    by_cases hc : fx_counts u ≤ 0
    · rw [if_pos hc] at hw
      simp at hw
    · rw [if_neg hc] at hw
      unfold multiGetTrackWrites at hw
      rcases List.mem_map.mp hw with ⟨f, hf, hfe⟩
      rw [List.mem_range] at hf
      subst hfe
      refine ⟨h0, by omega, ?_, ?_⟩ <;>
      · rw [apply_ite SlotWrite.idx]
        dsimp only
        rw [ite_self]
        simp only [Int.ofNat_eq_coe]
        omega

/-- Witness tracks for the multi-target claims: a valid target, a null
target, then another valid target. -/
def cexTracks : List Ptr := [1, 0, 3]

/-- Claim C4 (counterexample): the claim says a null target at index `t` has
its item count recorded as 0 in `param_counts`.  With the single target list
`[null]` (one null track, `fx_counts[0] = 1`), the call succeeds but performs
no `param_counts` write at all: a cell holding 7 beforehand still holds 7
afterwards, not 0. -/
theorem multi_get_null_track_no_zero_write_cex :
    plugin_bridge_batch_get_multi_track_fx_parameters countEnv 1 false false false
      false false [0] (fun _ => 1) (fun _ _ => 0) = ⟨true, []⟩ ∧
    countsAfter (fun _ => 7)
      (plugin_bridge_batch_get_multi_track_fx_parameters countEnv 1 false false false
        false false [0] (fun _ => 1) (fun _ _ => 0)).countWrites 0 = 7 ∧
    ¬ countsAfter (fun _ => 7)
      (plugin_bridge_batch_get_multi_track_fx_parameters countEnv 1 false false false
        false false [0] (fun _ => 1) (fun _ _ => 0)).countWrites 0 = 0 := by
  refine ⟨by decide, by decide, by decide⟩

/-- Claim C4 (amended): in the multi-target read, once setup succeeds, a null
target at index `t` is skipped without aborting: the call still returns true,
the null target contributes no writes at all (its `param_counts` slots keep
their prior values rather than being set to 0), every other target still
contributes exactly its own writes, and — when all `fx_counts` are
nonnegative — no write of the whole call lands in the skipped target's slot
range. -/
theorem multi_get_null_track_skipped (env : NativeEnv) (s : Ptr)
    (tracks : List Ptr) (fx_counts : Nat → Int) (fx_indices : Nat → Nat → Int)
    (t : Nat)
    (hlen : tracks.length ≠ 0) (hs : s ≠ 0)
    (h1 : env.getFunc "TrackFX_GetNumParams" ≠ 0)
    (h2 : env.getFunc "TrackFX_GetParamName" ≠ 0)
    (h3 : env.getFunc "TrackFX_GetParam" ≠ 0)
    (h4 : env.getFunc "TrackFX_GetFormattedParamValue" ≠ 0)
    (hnull : tracks.getD t 0 = 0)
    (hnn : ∀ i, 0 ≤ fx_counts i) :
    (plugin_bridge_batch_get_multi_track_fx_parameters env s false false false
      false false tracks fx_counts fx_indices).ok = true ∧
    trackContribution env tracks fx_counts fx_indices t = [] ∧
    (plugin_bridge_batch_get_multi_track_fx_parameters env s false false false
      false false tracks fx_counts fx_indices).countWrites =
      ((List.range tracks.length).map
        (trackContribution env tracks fx_counts fx_indices)).flatten ∧
    ∀ w ∈ (plugin_bridge_batch_get_multi_track_fx_parameters env s false false
      false false false tracks fx_counts fx_indices).countWrites,
      w.idx < offsetSum fx_counts t ∨ offsetSum fx_counts t + fx_counts t ≤ w.idx := by
  have hr : plugin_bridge_batch_get_multi_track_fx_parameters env s false false
      false false false tracks fx_counts fx_indices =
      ⟨true, ((List.range tracks.length).map
        (trackContribution env tracks fx_counts fx_indices)).flatten⟩ := by
    unfold plugin_bridge_batch_get_multi_track_fx_parameters
    simp [plugin_bridge_get_get_func, resolveOp, plugin_bridge_call_get_func,
      hlen, hs, h1, h2, h3, h4]
  have hcontr : trackContribution env tracks fx_counts fx_indices t = [] := by
    unfold trackContribution
    rw [if_pos hnull]
  refine ⟨by rw [hr], hcontr, by rw [hr], ?_⟩
  intro w hw
  rw [hr] at hw
  rcases List.mem_flatten.mp hw with ⟨l, hl, hwl⟩
  rcases List.mem_map.mp hl with ⟨u, hu, rfl⟩
  rw [List.mem_range] at hu
  obtain ⟨hu0, hupos, hlo, hhi⟩ :=
    trackContribution_mem_bounds env tracks fx_counts fx_indices u w hwl
  have hne : u ≠ t := fun he => hu0 (he ▸ hnull)
  rcases Nat.lt_or_ge u t with hut | htu
  · left
    have ha : offsetSum fx_counts (u + 1) ≤ offsetSum fx_counts t :=
      offsetSum_le fx_counts hnn _ _ hut
    have hb : offsetSum fx_counts (u + 1) = offsetSum fx_counts u + fx_counts u :=
      rfl
    omega
  · right
    have htu2 : t < u := lt_of_le_of_ne htu (Ne.symm hne)
    have ha : offsetSum fx_counts (t + 1) ≤ offsetSum fx_counts u :=
      offsetSum_le fx_counts hnn _ _ htu2
    have hb : offsetSum fx_counts (t + 1) = offsetSum fx_counts t + fx_counts t :=
      rfl
    omega

/-- Witness for `multi_get_null_track_skipped`: targets `[1, 0, 3]` with the
null target at index 1; the call succeeds and index 1 contributes nothing. -/
theorem multi_get_null_track_skipped_witness :
    (plugin_bridge_batch_get_multi_track_fx_parameters countEnv 1 false false
      false false false cexTracks (fun _ => 1) (fun _ _ => 0)).ok = true ∧
    trackContribution countEnv cexTracks (fun _ => 1) (fun _ _ => 0) 1 = [] := by
  have h := multi_get_null_track_skipped countEnv 1 cexTracks (fun _ => 1)
    (fun _ _ => 0) 1 (by decide) (by decide) (by decide) (by decide) (by decide)
    (by decide) (by decide) (fun _ => zero_le_one)
  exact ⟨h.1, h.2.1⟩

/-- Witness for `set_get_func_null_ignored_and_sticky` at state 1 with the
call sequence `[0, 5]`. -/
theorem set_get_func_null_ignored_and_sticky_witness :
    plugin_bridge_get_get_func (plugin_bridge_set_get_func 1 0) = 1 ∧
    List.foldl plugin_bridge_set_get_func 1 [0, 5] ≠ 0 := by
  have h := set_get_func_null_ignored_and_sticky 1 [0, 5]
  exact ⟨h.1, h.2 (by decide)⟩
